import Mathlib

/-!
Verification of the pychlorinator protocol codec.

Shallow embedding of the repository sources:
  - pychlorinator/chlorinator.py        (cipher transform, session auth token)
  - pychlorinator/chlorinator_parsers.py (poll-variant characteristic codecs)
  - pychlorinator/halo_parsers.py       (halo-variant action encoders and codecs)
  - pychlorinator/halochlorinator.py    (halo notification demultiplexer)

Bytes are modelled as lists of naturals (each element a byte value).  The
AES-128 block primitive of the external PyCryptodome library is modelled
abstractly: encryption and decryption are parameters ranging over functions
on 16-byte blocks, with block-inversion and length-preservation stated as
hypotheses where a theorem needs them.  ECB mode (blockwise application,
failing unless the input length is a multiple of 16, as PyCryptodome does)
is modelled explicitly.  Python exceptions are modelled by Option/Except
results.
-/

namespace PyChlorinator

/-- Byte at index i of a buffer, 0 when out of range (used only at indices
established to be in range by a length check). -/
def byteAt (bs : List Nat) (i : Nat) : Nat := bs.getD i 0

/-- Little-endian 16-bit value at offset i, as struct.unpack reads an H field. -/
def u16le (bs : List Nat) (i : Nat) : Nat := byteAt bs i + 256 * byteAt bs (i + 1)

/-- Little-endian 32-bit value at offset i, as struct.unpack reads an I field. -/
def u32le (bs : List Nat) (i : Nat) : Nat :=
  byteAt bs i + 256 * byteAt bs (i + 1) + 65536 * byteAt bs (i + 2) +
    16777216 * byteAt bs (i + 3)

/-- xor_bytes from chlorinator.py lines 47-51 (an identical copy exists in
halochlorinator.py lines 65-69): the shorter operand is zero padded on the
right to the longer length, then the two are XORed elementwise.  Output
length is the maximum of the two input lengths. -/
def xor_bytes (array1 array2 : List Nat) : List Nat :=
  let n := max array1.length array2.length
  List.zipWith (fun x y => x ^^^ y)
    (array1 ++ List.replicate (n - array1.length) 0)
    (array2 ++ List.replicate (n - array2.length) 0)

/-- Blockwise application of a 16-byte block function, structured on an
explicit fuel argument so that the recursion is structural: every step on a
nonempty buffer consumes at least one byte, so fuel equal to the buffer
length always suffices. -/
def ecbGoFuel (fuel : Nat) (f : List Nat → List Nat) (xs : List Nat) : List Nat :=
  match fuel, xs with
  | 0, _ => []
  | _ + 1, [] => []
  | n + 1, xs => f (xs.take 16) ++ ecbGoFuel n f (xs.drop 16)

/-- Blockwise application of a 16-byte block function, as AES-ECB applies the
block cipher to each successive 16-byte block of the input. -/
def ecbGo (f : List Nat → List Nat) (xs : List Nat) : List Nat :=
  ecbGoFuel xs.length f xs

/-- PyCryptodome ECB encrypt/decrypt: fails (raises ValueError) unless the
input length is a multiple of the 16-byte block size, otherwise applies the
block function to each block. -/
def ecb (f : List Nat → List Nat) (xs : List Nat) : Option (List Nat) :=
  if xs.length % 16 = 0 then some (ecbGo f xs) else none

/-- encrypt_mac_key from chlorinator.py lines 54-58 (identical copy in
halochlorinator.py lines 72-76): XOR the session key with the access code,
then AES-ECB encrypt the result under the fixed shared secret.  The AES
block encryption under SECRET_KEY is the parameter E. -/
def encrypt_mac_key (E : List Nat → List Nat) (session_key access_code : List Nat) :
    Option (List Nat) :=
  ecb E (xor_bytes session_key access_code)

/-- encrypt_characteristic from chlorinator.py lines 61-66 (identical copy in
halochlorinator.py lines 79-85): XOR with the session key, AES-ECB encrypt
the first 16 bytes, then AES-ECB encrypt everything from offset 4 of the
intermediate result. -/
def encrypt_characteristic (E : List Nat → List Nat) (data session_key : List Nat) :
    Option (List Nat) := do
  let xored := xor_bytes data session_key
  let e1 ← ecb E (xored.take 16)
  let array := e1 ++ xored.drop 16
  let e2 ← ecb E (array.drop 4)
  pure (array.take 4 ++ e2)

/-- decrypt_characteristic from chlorinator.py lines 69-74 (identical copy in
halochlorinator.py lines 88-94): AES-ECB decrypt everything from offset 4,
AES-ECB decrypt the first 16 bytes of the result, then XOR with the session
key.  The AES block decryption under SECRET_KEY is the parameter D. -/
def decrypt_characteristic (D : List Nat → List Nat) (data session_key : List Nat) :
    Option (List Nat) := do
  let d1 ← ecb D (data.drop 4)
  let array := data.take 4 ++ d1
  let d2 ← ecb D (array.take 16)
  pure (xor_bytes (d2 ++ array.drop 16) session_key)

/-!
Embedding of pychlorinator/chlorinator_parsers.py.

Python struct.unpack raises struct.error when the buffer is shorter than the
format size; a Python Enum call raises ValueError for a value outside the
enumerated domain.  Both are modelled by a DecodeError result, with the two
failure kinds kept distinct.  Scaled fields (Python float division by 10)
are modelled as exact rationals.
-/

/-- Decode failures: shortBuffer models struct.error on a buffer shorter
than the struct format size; unknownEnumValue models the ValueError raised
by an Enum constructor on a value outside its domain (the argument names the
enumeration). -/
inductive DecodeError where
  | shortBuffer : DecodeError
  | unknownEnumValue : String → DecodeError
deriving DecidableEq, Repr

/-- Decidable equality of Except results, so that concrete decoder outputs
can be checked by evaluation. -/
instance exceptDecEq {ε α : Type} [DecidableEq ε] [DecidableEq α] :
    DecidableEq (Except ε α) := fun x y =>
  match x, y with
  | .ok a, .ok b =>
    if h : a = b then isTrue (by rw [h])
    else isFalse (by intro e; injection e; contradiction)
  | .error a, .error b =>
    if h : a = b then isTrue (by rw [h])
    else isFalse (by intro e; injection e; contradiction)
  | .ok _, .error _ => isFalse (by intro e; exact Except.noConfusion e)
  | .error _, .ok _ => isFalse (by intro e; exact Except.noConfusion e)

/-- SpeedLevels enum from chlorinator_parsers.py lines 36-46. -/
inductive SpeedLevels where
  | Low | Medium | High | AI | NotSet
deriving DecidableEq, Repr

/-- The Python call SpeedLevels(v) on a wire byte: values 0-3 are in the
domain; NotSet is encoded as -1 in the enum and is unreachable from an
unsigned wire byte; every other value raises ValueError. -/
def SpeedLevels.ofByte : Nat → Option SpeedLevels
  | 0 => some .Low
  | 1 => some .Medium
  | 2 => some .High
  | 3 => some .AI
  | _ => none

/-- Modes enum from chlorinator_parsers.py lines 25-33. -/
inductive Modes where
  | Off | ManualOn | Auto
deriving DecidableEq, Repr

def Modes.ofByte : Nat → Option Modes
  | 0 => some .Off
  | 1 => some .ManualOn
  | 2 => some .Auto
  | _ => none

/-- InfoMessages enum from chlorinator_parsers.py lines 49-69.  The member
WARNING_LEVEL_IF_EQUAL_OR_GREATER_THAN_THIS_VALUE = 128 is a Python alias of
RtccFault, so InfoMessages(128) yields RtccFault. -/
inductive InfoMessages where
  | NoMessage | PhProbeNoComms | PhProbeOtherError | PhProbeCleanCalibrate
  | OrpProbeNoComms | OrpProbeOtherError | OrpProbeCleanCalibrate
  | G4CommsFailure | NoWaterFlow
  | RtccFault | OrpProbeFittedPhProbeMissing | AiPumpSpeed | LowSalt | Unspecified
deriving DecidableEq, Repr

def InfoMessages.ofByte : Nat → Option InfoMessages
  | 0 => some .NoMessage
  | 1 => some .PhProbeNoComms
  | 2 => some .PhProbeOtherError
  | 3 => some .PhProbeCleanCalibrate
  | 4 => some .OrpProbeNoComms
  | 5 => some .OrpProbeOtherError
  | 6 => some .OrpProbeCleanCalibrate
  | 7 => some .G4CommsFailure
  | 8 => some .NoWaterFlow
  | 128 => some .RtccFault
  | 129 => some .OrpProbeFittedPhProbeMissing
  | 130 => some .AiPumpSpeed
  | 131 => some .LowSalt
  | 132 => some .Unspecified
  | _ => none

/-- ChlorineControlStatuses enum from chlorinator_parsers.py lines 72-86.
Unknown is encoded as -1 and is unreachable from an unsigned wire byte. -/
inductive ChlorineControlStatuses where
  | Unknown | Invalid_NoMeasurement | VeryVeryLow | VeryLow | Low | Ok
  | High | VeryHigh | VeryVeryHigh
deriving DecidableEq, Repr

def ChlorineControlStatuses.ofByte : Nat → Option ChlorineControlStatuses
  | 0 => some .Invalid_NoMeasurement
  | 1 => some .VeryVeryLow
  | 2 => some .VeryLow
  | 3 => some .Low
  | 4 => some .Ok
  | 5 => some .High
  | 6 => some .VeryHigh
  | 7 => some .VeryVeryHigh
  | _ => none

/-- PhControlTypes enum from chlorinator_parsers.py lines 115-123. -/
inductive PhControlTypes where
  | NoPhControl | Manual | Automatic
deriving DecidableEq, Repr

def PhControlTypes.ofByte : Nat → Option PhControlTypes
  | 0 => some .NoPhControl
  | 1 => some .Manual
  | 2 => some .Automatic
  | _ => none

/-- ChlorineControlTypes enum from chlorinator_parsers.py lines 126-134. -/
inductive ChlorineControlTypes where
  | NoChloringControl | Manual | Automatic
deriving DecidableEq, Repr

def ChlorineControlTypes.ofByte : Nat → Option ChlorineControlTypes
  | 0 => some .NoChloringControl
  | 1 => some .Manual
  | 2 => some .Automatic
  | _ => none

/-- VolumeUnitsTypes enum from chlorinator_parsers.py lines 137-145. -/
inductive VolumeUnitsTypes where
  | Litres | UsGallons | ImperialGallons
deriving DecidableEq, Repr

/-- ChlorinatorSetup record, chlorinator_parsers.py lines 224-242
(struct format @BBHB, size 5: bytes 0 and 1, a little-endian 16-bit value at
offset 2, byte 4). -/
structure ChlorinatorSetup where
  default_manual_on_speed : SpeedLevels
  ph_control_setpoint : Rat
  chlorine_control_setpoint : Nat
  flags : Nat
  is_no_timer_model : Bool
  is_timer_master_present_in_system : Bool
deriving DecidableEq, Repr

/-- Decoder for the ChlorinatorSetup characteristic
(ChlorinatorSetup.__init__, chlorinator_parsers.py lines 229-242). -/
def decodeChlorinatorSetup (bs : List Nat) : Except DecodeError ChlorinatorSetup :=
  if bs.length < 5 then .error .shortBuffer else
  match SpeedLevels.ofByte (byteAt bs 0) with
  | none => .error (.unknownEnumValue "SpeedLevels")
  | some speed =>
    .ok { default_manual_on_speed := speed
          ph_control_setpoint := (byteAt bs 1 : Rat) / 10
          chlorine_control_setpoint := u16le bs 2
          flags := byteAt bs 4
          is_no_timer_model := byteAt bs 4 &&& 1 ≠ 0
          is_timer_master_present_in_system := byteAt bs 4 &&& 2 ≠ 0 }

/-- ChlorinatorState record, chlorinator_parsers.py lines 245-285
(struct format @BBBBBBBBBBB, 11 unsigned bytes).  The eight booleans are the
StateFlags bit masks of lines 99-109 applied to the flags byte (offset 5). -/
structure ChlorinatorState where
  mode : Modes
  pump_speed : SpeedLevels
  active_timer : Nat
  info_message : InfoMessages
  reserved : Nat
  flags : Nat
  ph_measurement : Rat
  chlorine_control_status : ChlorineControlStatuses
  time_hours : Nat
  time_minutes : Nat
  time_seconds : Nat
  chemistry_values_current : Bool
  chemistry_values_valid : Bool
  spa_selection : Bool
  pump_is_priming : Bool
  pump_is_operating : Bool
  cell_is_operating : Bool
  user_settings_has_changed : Bool
  sanitising_until_next_timer_tomorrow : Bool
deriving DecidableEq, Repr

/-- Decoder for the ChlorinatorState characteristic
(ChlorinatorState.__init__, chlorinator_parsers.py lines 250-285).  Enum
conversions are attempted in source order: Modes, SpeedLevels, InfoMessages,
ChlorineControlStatuses. -/
def decodeChlorinatorState (bs : List Nat) : Except DecodeError ChlorinatorState :=
  if bs.length < 11 then .error .shortBuffer else
  match Modes.ofByte (byteAt bs 0) with
  | none => .error (.unknownEnumValue "Modes")
  | some mode =>
  match SpeedLevels.ofByte (byteAt bs 1) with
  | none => .error (.unknownEnumValue "SpeedLevels")
  | some speed =>
  match InfoMessages.ofByte (byteAt bs 3) with
  | none => .error (.unknownEnumValue "InfoMessages")
  | some info =>
  match ChlorineControlStatuses.ofByte (byteAt bs 7) with
  | none => .error (.unknownEnumValue "ChlorineControlStatuses")
  | some ccs =>
    .ok { mode := mode
          pump_speed := speed
          active_timer := byteAt bs 2
          info_message := info
          reserved := byteAt bs 4
          flags := byteAt bs 5
          ph_measurement := (byteAt bs 6 : Rat) / 10
          chlorine_control_status := ccs
          time_hours := byteAt bs 8
          time_minutes := byteAt bs 9
          time_seconds := byteAt bs 10
          chemistry_values_current := byteAt bs 5 &&& 1 ≠ 0
          chemistry_values_valid := byteAt bs 5 &&& 2 ≠ 0
          spa_selection := byteAt bs 5 &&& 4 ≠ 0
          pump_is_priming := byteAt bs 5 &&& 8 ≠ 0
          pump_is_operating := byteAt bs 5 &&& 0x10 ≠ 0
          cell_is_operating := byteAt bs 5 &&& 0x20 ≠ 0
          user_settings_has_changed := byteAt bs 5 &&& 0x40 ≠ 0
          sanitising_until_next_timer_tomorrow := byteAt bs 5 &&& 0x80 ≠ 0 }

/-- ChlorinatorCapabilities record, chlorinator_parsers.py lines 288-338
(struct format @BBBBBBBBBBBBBBB3sH, size 20: fifteen bytes at offsets 0-14,
a 3-byte string at offsets 15-17, a little-endian 16-bit value at 18).
volume_units is an Option because the source leaves the attribute unassigned
when the volume-unit bits of the flags byte equal 0x08 (the unreachable
ImperialGallons case). -/
structure ChlorinatorCapabilities where
  minimum_manual_acid_setpoint : Nat
  maximum_manual_acid_setpoint : Nat
  minimum_manual_chlorine_setpoint : Nat
  maximum_manual_chlorine_setpoint : Nat
  minimum_ph_setpoint : Rat
  maximum_ph_setpoint : Rat
  minimum_orp_setpoint : Nat
  maximum_orp_setpoint : Nat
  ph_control_type : PhControlTypes
  chlorine_control_type : ChlorineControlTypes
  flags : Nat
  cell_size : Nat
  acid_pump_size : Nat
  filter_pump_size : Rat
  reversal_period : Nat
  pool_volume : List Nat
  spa_volume : Nat
  threespeed_pump_enabled : Bool
  ai_mode_enabled : Bool
  volume_units : Option VolumeUnitsTypes
  lighting_enabled : Bool
  dosing_capable_unit : Bool
deriving DecidableEq, Repr

/-- The volume-units conditional of ChlorinatorCapabilities.__init__
(chlorinator_parsers.py lines 326-332): both inner branches test the
UsGallons bit (0x04), so when the masked bits equal 0x08 neither branch
assigns and the attribute stays unset (none). -/
def capabilitiesVolumeUnits (flags : Nat) : Option VolumeUnitsTypes :=
  if flags &&& 0xC ≠ 0 then
    if flags &&& 4 ≠ 0 then some .UsGallons
    else if flags &&& 4 ≠ 0 then some .ImperialGallons
    else none
  else some .Litres

/-- Decoder for the ChlorinatorCapabilities characteristic
(ChlorinatorCapabilities.__init__, chlorinator_parsers.py lines 293-338). -/
def decodeChlorinatorCapabilities (bs : List Nat) :
    Except DecodeError ChlorinatorCapabilities :=
  if bs.length < 20 then .error .shortBuffer else
  match PhControlTypes.ofByte (byteAt bs 8) with
  | none => .error (.unknownEnumValue "PhControlTypes")
  | some phct =>
  match ChlorineControlTypes.ofByte (byteAt bs 9) with
  | none => .error (.unknownEnumValue "ChlorineControlTypes")
  | some chlct =>
    .ok { minimum_manual_acid_setpoint := byteAt bs 0
          maximum_manual_acid_setpoint := byteAt bs 1
          minimum_manual_chlorine_setpoint := byteAt bs 2
          maximum_manual_chlorine_setpoint := byteAt bs 3
          minimum_ph_setpoint := (byteAt bs 4 : Rat) / 10
          maximum_ph_setpoint := (byteAt bs 5 : Rat) / 10
          minimum_orp_setpoint := byteAt bs 6 * 10
          maximum_orp_setpoint := byteAt bs 7 * 10
          ph_control_type := phct
          chlorine_control_type := chlct
          flags := byteAt bs 10
          cell_size := byteAt bs 11
          acid_pump_size := byteAt bs 12
          filter_pump_size := (byteAt bs 13 : Rat) / 10
          reversal_period := byteAt bs 14
          pool_volume := [byteAt bs 15, byteAt bs 16, byteAt bs 17]
          spa_volume := u16le bs 18
          threespeed_pump_enabled := byteAt bs 10 &&& 1 ≠ 0
          ai_mode_enabled := byteAt bs 10 &&& 2 ≠ 0
          volume_units := capabilitiesVolumeUnits (byteAt bs 10)
          lighting_enabled := byteAt bs 10 &&& 0x10 ≠ 0
          dosing_capable_unit := byteAt bs 10 &&& 0x20 ≠ 0 }

/-- ChlorinatorStatistics record, chlorinator_parsers.py lines 357-380
(struct format @BBHHHIIB, size 17).  The two running times are Python
timedeltas built from whole hours; they are modelled by their hour counts. -/
structure ChlorinatorStatistics where
  highest_ph_measured : Rat
  lowest_ph_measured : Rat
  highest_orp_measured : Nat
  lowest_orp_measured : Nat
  cell_reversal_count : Nat
  cell_running_time_hours : Nat
  low_salt_cell_running_time_hours : Nat
  previous_days_cell_load : Nat
deriving DecidableEq, Repr

/-- Decoder for the ChlorinatorStatistics characteristic
(ChlorinatorStatistics.__init__, chlorinator_parsers.py lines 362-380). -/
def decodeChlorinatorStatistics (bs : List Nat) :
    Except DecodeError ChlorinatorStatistics :=
  if bs.length < 17 then .error .shortBuffer else
    .ok { highest_ph_measured := (byteAt bs 0 : Rat) / 10
          lowest_ph_measured := (byteAt bs 1 : Rat) / 10
          highest_orp_measured := u16le bs 2
          lowest_orp_measured := u16le bs 4
          cell_reversal_count := u16le bs 6
          cell_running_time_hours := u32le bs 8
          low_salt_cell_running_time_hours := u32le bs 12
          previous_days_cell_load := byteAt bs 16 }

/-- PumpTimer value type, chlorinator_parsers.py lines 183-189.  The Python
timedelta start/stop times are modelled as whole minutes (every timer the
code builds has whole-minute resolution: hours*60 + minutes). -/
structure PumpTimer where
  enabled : Bool
  start_time : Nat
  stop_time : Nat
  speed_level : SpeedLevels
deriving DecidableEq, Repr

/-- Minutes in one day, the timedelta(days=1) bound of is_invalid. -/
def dayMinutes : Nat := 1440

/-- PumpTimer.is_invalid, chlorinator_parsers.py lines 191-203: a disabled
timer is reported valid outright; an enabled timer is invalid when start or
stop exceeds 24 hours, start is at or after stop, or the speed level is
unset. -/
def PumpTimer.is_invalid (t : PumpTimer) : Bool :=
  if !t.enabled then false
  else if t.start_time > dayMinutes || t.stop_time > dayMinutes then true
  else if t.start_time ≥ t.stop_time then true
  else if t.speed_level = SpeedLevels.NotSet then true
  else false

/-- The loop body of ChlorinatorTimers.__init__, chlorinator_parsers.py
lines 392-408, decoding one 4-byte timer entry: start hour is the low five
bits of byte 0 (TimerFlags.StartHourMask = 0x1F), the enabled flag is bit
0x20, and the speed level is bits 6-7 (TimerFlags.SpeelLevelMask = 0xC0)
shifted right by 6 and converted through the SpeedLevels enum. -/
def decodeOneTimer (b0 b1 b2 b3 : Nat) : Except DecodeError PumpTimer :=
  match SpeedLevels.ofByte ((b0 &&& 0xC0) >>> 6) with
  | none => .error (.unknownEnumValue "SpeedLevels")
  | some speed =>
    .ok { enabled := b0 &&& 0x20 ≠ 0
          start_time := (b0 &&& 0x1F) * 60 + b1
          stop_time := b2 * 60 + b3
          speed_level := speed }

/-- ChlorinatorTimers record, chlorinator_parsers.py lines 383-408. -/
structure ChlorinatorTimers where
  pump_timers : List PumpTimer
deriving DecidableEq, Repr

/-- Decoder for the ChlorinatorTimers characteristic
(ChlorinatorTimers.__init__, chlorinator_parsers.py lines 388-408): four
timers (NUMBER_OF_PUMP_TIMERS_SUPPORTED) at a 4-byte stride
(calcsize of @BBBB).  struct.unpack raises on the first slice shorter than
4 bytes, which happens exactly when the buffer is shorter than 16 bytes. -/
def decodeChlorinatorTimers (bs : List Nat) : Except DecodeError ChlorinatorTimers :=
  if bs.length < 16 then .error .shortBuffer else do
  let t0 ← decodeOneTimer (byteAt bs 0) (byteAt bs 1) (byteAt bs 2) (byteAt bs 3)
  let t1 ← decodeOneTimer (byteAt bs 4) (byteAt bs 5) (byteAt bs 6) (byteAt bs 7)
  let t2 ← decodeOneTimer (byteAt bs 8) (byteAt bs 9) (byteAt bs 10) (byteAt bs 11)
  let t3 ← decodeOneTimer (byteAt bs 12) (byteAt bs 13) (byteAt bs 14) (byteAt bs 15)
  pure { pump_timers := [t0, t1, t2, t3] }

/-!
Action encoders.  struct.pack of a B field raises struct.error for values
outside 0-255, and of an i field for values outside the signed 32-bit
range; both failures are modelled by none.
-/

/-- The four little-endian bytes of a signed 32-bit value (struct format i),
two's complement. -/
def i32le (p : Int) : List Nat :=
  let u := (p % 4294967296).toNat
  [u % 256, u / 256 % 256, u / 65536 % 256, u / 16777216 % 256]

/-- ChlorinatorAction.__bytes__ from chlorinator_parsers.py lines 219-221:
struct.pack with format =B i 15x packs the 1-byte action tag, the 4-byte
little-endian signed period parameter, then 15 zero pad bytes, for a fixed
20-byte buffer. -/
def chlorinatorActionBytes (action : Nat) (period_minutes : Int) :
    Option (List Nat) :=
  if action < 256 ∧ -2147483648 ≤ period_minutes ∧ period_minutes < 2147483648 then
    some ([action] ++ i32le period_minutes ++ List.replicate 15 0)
  else none

/-- The struct 3s field: a bytes argument is truncated or zero padded to
exactly 3 bytes. -/
def pack3s (h : List Nat) : List Nat :=
  (h.take 3) ++ List.replicate (3 - h.length) 0

/-- The halo ChlorinatorAction.__bytes__ from halo_parsers.py lines 100-103:
struct.pack with format =3s B i 12x packs the 3-byte header (default
b"\x03\xF4\x01"), the 1-byte action tag, the 4-byte little-endian signed
period parameter, then 12 zero pad bytes, for a fixed 20-byte buffer. -/
def haloChlorinatorActionBytes (header : List Nat) (action : Nat)
    (period_minutes : Int) : Option (List Nat) :=
  if action < 256 ∧ -2147483648 ≤ period_minutes ∧ period_minutes < 2147483648 then
    some (pack3s header ++ [action] ++ i32le period_minutes ++ List.replicate 12 0)
  else none

/-- The default header bytes b"\x03\xF4\x01" of the halo ChlorinatorAction. -/
def haloActionDefaultHeader : List Nat := [0x03, 0xF4, 0x01]

/-!
Embedding of the halo notification demultiplexer
(HaloChlorinatorAPI.async_gatherdata.callback_handler, halochlorinator.py
lines 185-236) and the two registry decoders its verified scenario
exercises (TempCharacteristic and ProbeCharacteristic, halo_parsers.py).

Decoded records enter the state snapshot through vars(record), a mapping
from field name to value; enum and flag members are represented here by
their numeric wire value, and scaled fields by exact rationals, so every
field value is modelled as a rational.
-/

/-- Field list of a decoded halo record, in vars() order; none models a
decoder that raises (struct.error or ValueError), in which case the
exception escapes the callback and nothing is merged. -/
def HaloDecoder := List Nat → Option (List (String × Rat))

/-- TempCharacteristic from halo_parsers.py lines 214-272 (struct format
<BBHHHHBHHB, size 16).  BoardTemp, WaterTemp, ChloroWater, SolarWater,
SolarRoof and Heater are divided by 10 (several flagged in the source as
unconfirmed assumptions and preserved as such); TempSupports and
TempDisplayed are IntFlag conversions, which keep the numeric value and
never raise; WaterTempValid goes through TempValidEnum (domain 0-2), which
raises ValueError outside the domain. -/
def decodeTempCharacteristic : HaloDecoder := fun bs =>
  if bs.length < 16 then none
  else if byteAt bs 10 ≥ 3 then none
  else some
    [("IsFahrenheit", (byteAt bs 0 : Rat)),
     ("TempSupports", (byteAt bs 1 : Rat)),
     ("BoardTemp", (u16le bs 2 : Rat) / 10),
     ("WaterTemp", (u16le bs 4 : Rat) / 10),
     ("ChloroWater", (u16le bs 6 : Rat) / 10),
     ("SolarWater", (u16le bs 8 : Rat) / 10),
     ("WaterTempValid", (byteAt bs 10 : Rat)),
     ("SolarRoof", (u16le bs 11 : Rat) / 10),
     ("Heater", (u16le bs 13 : Rat) / 10),
     ("TempDisplayed", (byteAt bs 15 : Rat))]

/-- ProbeCharacteristic from halo_parsers.py lines 1108-1117 (struct format
<BBHH, size 6).  The two pH extremes are divided by 10. -/
def decodeProbeCharacteristic : HaloDecoder := fun bs =>
  if bs.length < 6 then none
  else some
    [("HighestPhMeasured", (byteAt bs 0 : Rat) / 10),
     ("LowestPhMeasured", (byteAt bs 1 : Rat) / 10),
     ("HighestOrpMeasured", (u16le bs 2 : Rat)),
     ("LowestOrpMeasured", (u16le bs 4 : Rat))]

/-- The entries for command tags 9 (ExtractTemp) and 600
(ExtractProbeStatistics) of the characteristics registry dict of
callback_handler (halochlorinator.py lines 186-223), the two entries the
verified demultiplexer scenario exercises. -/
def characteristics9600 : Nat → Option HaloDecoder := fun tag =>
  if tag = 9 then some decodeTempCharacteristic
  else if tag = 600 then some decodeProbeCharacteristic
  else none

/-- The command tag of a decrypted notification packet:
int.from_bytes(decrypted[1:3], little) at callback_handler line 227.
Missing bytes of a short slice contribute zero, as in Python. -/
def cmdTypeOf (decrypted : List Nat) : Nat :=
  byteAt decrypted 1 + 256 * byteAt decrypted 2

/-- The data slice of a decrypted notification packet: decrypted[3:20] at
callback_handler line 228. -/
def cmdDataOf (decrypted : List Nat) : List Nat :=
  (decrypted.drop 3).take 17

/-- The state snapshot: the mutable result dict accumulated by
async_gatherdata, as a map from field name to value. -/
def Snapshot := String → Option Rat

def emptySnapshot : Snapshot := fun _ => none

/-- The last binding of a key in a field list: within one record the last
assignment to a field name wins, as in a Python dict built in order. -/
def lookupLast (fields : List (String × Rat)) (k : String) : Option Rat :=
  fields.reverse.lookup k

/-- dict.update of the result dict with a decoded record
(callback_handler line 236): every field of the record overrides the
snapshot entry of the same name; other entries are kept. -/
def updateSnapshot (snap : Snapshot) (fields : List (String × Rat)) : Snapshot :=
  fun k => match lookupLast fields k with
    | some v => some v
    | none => snap k

/-- One callback invocation on an already decrypted packet
(callback_handler lines 227-236): extract the command tag and the data
slice; when the tag is in the registry and the decoder succeeds, merge its
fields into the snapshot; otherwise (unknown tag, or a decoder exception
escaping the callback) the snapshot is unchanged. -/
def handlePacket (registry : Nat → Option HaloDecoder) (snap : Snapshot)
    (decrypted : List Nat) : Snapshot :=
  match registry (cmdTypeOf decrypted) with
  | none => snap
  | some dec =>
    match dec (cmdDataOf decrypted) with
    | none => snap
    | some fields => updateSnapshot snap fields

/-- The demultiplexer over an ordered sequence of decrypted notification
packets: each packet is handled in arrival order against an initially empty
result dict. -/
def processPackets (registry : Nat → Option HaloDecoder)
    (packets : List (List Nat)) : Snapshot :=
  packets.foldl (handlePacket registry) emptySnapshot

/-- The fields a packet contributes: the decoder output when its tag is in
the registry and the decoder succeeds. -/
def packetFields (registry : Nat → Option HaloDecoder) (decrypted : List Nat) :
    Option (List (String × Rat)) :=
  match registry (cmdTypeOf decrypted) with
  | none => none
  | some dec => dec (cmdDataOf decrypted)

/-- A concrete state buffer whose flags byte (offset 5) is 0x21. -/
def stateBuf0x21 : List Nat := [0, 0, 0, 0, 0, 0x21, 70, 4, 0, 0, 0]

/-- The decoded record of stateBuf0x21, spelled as the decoder produces it
so that the decode equation holds definitionally. -/
def stateRecord0x21 : ChlorinatorState :=
  { mode := Modes.Off, pump_speed := SpeedLevels.Low,
    active_timer := byteAt stateBuf0x21 2,
    info_message := InfoMessages.NoMessage,
    reserved := byteAt stateBuf0x21 4,
    flags := byteAt stateBuf0x21 5,
    ph_measurement := (byteAt stateBuf0x21 6 : Rat) / 10,
    chlorine_control_status := ChlorineControlStatuses.Ok,
    time_hours := byteAt stateBuf0x21 8,
    time_minutes := byteAt stateBuf0x21 9,
    time_seconds := byteAt stateBuf0x21 10,
    chemistry_values_current := byteAt stateBuf0x21 5 &&& 1 ≠ 0,
    chemistry_values_valid := byteAt stateBuf0x21 5 &&& 2 ≠ 0,
    spa_selection := byteAt stateBuf0x21 5 &&& 4 ≠ 0,
    pump_is_priming := byteAt stateBuf0x21 5 &&& 8 ≠ 0,
    pump_is_operating := byteAt stateBuf0x21 5 &&& 0x10 ≠ 0,
    cell_is_operating := byteAt stateBuf0x21 5 &&& 0x20 ≠ 0,
    user_settings_has_changed := byteAt stateBuf0x21 5 &&& 0x40 ≠ 0,
    sanitising_until_next_timer_tomorrow := byteAt stateBuf0x21 5 &&& 0x80 ≠ 0 }

/-- A concrete capabilities buffer whose flags byte (offset 10) has
volume-unit bits 0x08 (the wire encoding of imperial gallons). -/
def capsBuf8 : List Nat := [0, 0, 0, 0, 0, 0, 0, 0, 0, 0, 8, 0, 0, 0, 0, 0, 0, 0, 0, 0]

/-- The decoded record of capsBuf8, spelled as the decoder produces it. -/
def capsRecord8 : ChlorinatorCapabilities :=
  { minimum_manual_acid_setpoint := byteAt capsBuf8 0
    maximum_manual_acid_setpoint := byteAt capsBuf8 1
    minimum_manual_chlorine_setpoint := byteAt capsBuf8 2
    maximum_manual_chlorine_setpoint := byteAt capsBuf8 3
    minimum_ph_setpoint := (byteAt capsBuf8 4 : Rat) / 10
    maximum_ph_setpoint := (byteAt capsBuf8 5 : Rat) / 10
    minimum_orp_setpoint := byteAt capsBuf8 6 * 10
    maximum_orp_setpoint := byteAt capsBuf8 7 * 10
    ph_control_type := PhControlTypes.NoPhControl
    chlorine_control_type := ChlorineControlTypes.NoChloringControl
    flags := byteAt capsBuf8 10
    cell_size := byteAt capsBuf8 11
    acid_pump_size := byteAt capsBuf8 12
    filter_pump_size := (byteAt capsBuf8 13 : Rat) / 10
    reversal_period := byteAt capsBuf8 14
    pool_volume := [byteAt capsBuf8 15, byteAt capsBuf8 16, byteAt capsBuf8 17]
    spa_volume := u16le capsBuf8 18
    threespeed_pump_enabled := byteAt capsBuf8 10 &&& 1 ≠ 0
    ai_mode_enabled := byteAt capsBuf8 10 &&& 2 ≠ 0
    volume_units := capabilitiesVolumeUnits (byteAt capsBuf8 10)
    lighting_enabled := byteAt capsBuf8 10 &&& 0x10 ≠ 0
    dosing_capable_unit := byteAt capsBuf8 10 &&& 0x20 ≠ 0 }

/-- A well-formed decrypted notification packet with command tag 9
(temperature): tag bytes 9, 0 little-endian at offsets 1-2, then a data
slice of 17 zero bytes (a valid temperature record). -/
def packet9 : List Nat := [0, 9, 0] ++ List.replicate 17 0

/-- A well-formed decrypted notification packet with command tag 600
(probe statistics): 600 = 88 + 256 * 2 little-endian. -/
def packet600 : List Nat := [0, 88, 2] ++ List.replicate 17 0

/-- A decrypted notification packet with command tag 9 whose data slice has
WaterTempValid byte 5, outside the TempValidEnum domain 0-2, so the
temperature decoder raises and nothing is merged. -/
def packetBad9 : List Nat :=
  [0, 9, 0] ++ (List.replicate 10 0 ++ [5] ++ List.replicate 6 0)

/-- The field names of a decoded TempCharacteristic record, in vars()
order. -/
def tempFieldNames : List String :=
  ["IsFahrenheit", "TempSupports", "BoardTemp", "WaterTemp", "ChloroWater",
   "SolarWater", "WaterTempValid", "SolarRoof", "Heater", "TempDisplayed"]

/-- The field names of a decoded ProbeCharacteristic record, in vars()
order. -/
def probeFieldNames : List String :=
  ["HighestPhMeasured", "LowestPhMeasured", "HighestOrpMeasured",
   "LowestOrpMeasured"]

/-- The fields the temperature decoder produces for packet9, spelled as the
decoder produces them so the decode equation holds definitionally. -/
def tempFields9 : List (String × Rat) :=
  [("IsFahrenheit", (byteAt (cmdDataOf packet9) 0 : Rat)),
   ("TempSupports", (byteAt (cmdDataOf packet9) 1 : Rat)),
   ("BoardTemp", (u16le (cmdDataOf packet9) 2 : Rat) / 10),
   ("WaterTemp", (u16le (cmdDataOf packet9) 4 : Rat) / 10),
   ("ChloroWater", (u16le (cmdDataOf packet9) 6 : Rat) / 10),
   ("SolarWater", (u16le (cmdDataOf packet9) 8 : Rat) / 10),
   ("WaterTempValid", (byteAt (cmdDataOf packet9) 10 : Rat)),
   ("SolarRoof", (u16le (cmdDataOf packet9) 11 : Rat) / 10),
   ("Heater", (u16le (cmdDataOf packet9) 13 : Rat) / 10),
   ("TempDisplayed", (byteAt (cmdDataOf packet9) 15 : Rat))]

/-!
Theorems.  Shared lemmas about xor_bytes and ECB come first, then one
theorem per claim (with witnesses and counterexamples where applicable).
-/

theorem zipWith_xor_cancel (x : List Nat) : ∀ y : List Nat, x.length = y.length →
    List.zipWith (fun a b => a ^^^ b) (List.zipWith (fun a b => a ^^^ b) x y) y = x := by
  induction x with
  | nil => intro y h; cases y with
    | nil => rfl
    | cons b y => simp at h
  | cons a x ih =>
    intro y h
    cases y with
    | nil => simp at h
    | cons b y =>
      simp only [List.zipWith_cons_cons]
      rw [Nat.xor_assoc, Nat.xor_self, Nat.xor_zero, ih y (by simpa using h)]

theorem xor_bytes_eq_zipWith_left (a b : List Nat) (h : a.length ≤ b.length) :
    xor_bytes a b =
      List.zipWith (fun x y => x ^^^ y)
        (a ++ List.replicate (b.length - a.length) 0) b := by
  simp only [xor_bytes, max_eq_right h, Nat.sub_self, List.replicate_zero,
    List.append_nil]

theorem xor_bytes_eq_zipWith_right (a b : List Nat) (h : b.length ≤ a.length) :
    xor_bytes a b =
      List.zipWith (fun x y => x ^^^ y) a
        (b ++ List.replicate (a.length - b.length) 0) := by
  simp only [xor_bytes, max_eq_left h, Nat.sub_self, List.replicate_zero,
    List.append_nil]

theorem length_xor_bytes (a b : List Nat) :
    (xor_bytes a b).length = max a.length b.length := by
  unfold xor_bytes
  simp only [List.length_zipWith, List.length_append, List.length_replicate]
  omega

/-- XOR with the same operand twice recovers the longer first operand
exactly (used for payload decryption, where the payload is at least as long
as the 16-byte session key). -/
theorem xor_bytes_self_inverse_right (a b : List Nat) (h : b.length ≤ a.length) :
    xor_bytes (xor_bytes a b) b = a := by
  have h1 := xor_bytes_eq_zipWith_right a b h
  have hlen : (xor_bytes a b).length = a.length := by
    rw [length_xor_bytes, max_eq_left h]
  rw [xor_bytes_eq_zipWith_right _ b (by omega), hlen, h1]
  exact zipWith_xor_cancel a _ (by simp; omega)

/-- Claim C6 (amended): xor_bytes is its own inverse only up to padding.
When len b is at least len a, applying xor_bytes twice with b recovers a
zero padded on the right to the length of b, not a itself (the two lengths
agree exactly when len a = len b). -/
theorem claimC6_xor_bytes_roundtrip_padded (a b : List Nat)
    (h : a.length ≤ b.length) :
    xor_bytes (xor_bytes a b) b = a ++ List.replicate (b.length - a.length) 0 := by
  have h1 := xor_bytes_eq_zipWith_left a b h
  have hlen : (xor_bytes a b).length = b.length := by
    rw [length_xor_bytes, max_eq_right h]
  rw [xor_bytes_eq_zipWith_right _ b (by omega), hlen, Nat.sub_self, h1]
  simp only [List.replicate_zero, List.append_nil]
  exact zipWith_xor_cancel _ b (by simp; omega)

/-- Witness for claim C6: the amended round trip at a concrete input. -/
theorem claimC6_witness :
    ([1, 7].length ≤ [0, 0, 5].length) ∧
      xor_bytes (xor_bytes [1, 7] [0, 0, 5]) [0, 0, 5] = [1, 7] ++ List.replicate 1 0 :=
  ⟨by decide, claimC6_xor_bytes_roundtrip_padded [1, 7] [0, 0, 5] (by decide)⟩

/-- Counterexample for claim C6 as stated: with a = [1] and b = [0, 0]
(len b ≥ len a), the double XOR yields [1, 0], not a = [1]. -/
theorem claimC6_counterexample :
    xor_bytes (xor_bytes [1] [0, 0]) [0, 0] = [1, 0] ∧
      xor_bytes (xor_bytes [1] [0, 0]) [0, 0] ≠ [1] := by decide

theorem ecbGoFuel_nil (f : List Nat → List Nat) (n : Nat) : ecbGoFuel n f [] = [] := by
  cases n <;> rfl

theorem ecbGoFuel_succ (f : List Nat → List Nat) (n : Nat) (xs : List Nat)
    (h : xs ≠ []) :
    ecbGoFuel (n + 1) f xs = f (xs.take 16) ++ ecbGoFuel n f (xs.drop 16) := by
  cases xs with
  | nil => exact absurd rfl h
  | cons a l => rfl

theorem ecbGo_single (f : List Nat → List Nat) (xs : List Nat)
    (h : xs.length = 16) : ecbGo f xs = f xs := by
  have hne : xs ≠ [] := by intro e; rw [e] at h; simp at h
  unfold ecbGo
  rw [h, ecbGoFuel_succ f 15 xs hne, List.take_of_length_le (by omega),
    List.drop_eq_nil_of_le (by omega), ecbGoFuel_nil, List.append_nil]

theorem length_ecbGoFuel (f : List Nat → List Nat)
    (hf : ∀ b, b.length = 16 → (f b).length = 16) :
    ∀ n xs, xs.length ≤ n → xs.length % 16 = 0 →
      (ecbGoFuel n f xs).length = xs.length := by
  intro n
  induction n with
  | zero =>
    intro xs h _
    have : xs = [] := List.eq_nil_of_length_eq_zero (by omega)
    subst this; rfl
  | succ n ih =>
    intro xs h hm
    by_cases hx : xs = []
    · subst hx; rfl
    · have hpos : xs.length ≠ 0 := fun e => hx (List.eq_nil_of_length_eq_zero e)
      have h16 : 16 ≤ xs.length := by omega
      rw [ecbGoFuel_succ f n xs hx, List.length_append]
      have ht : (xs.take 16).length = 16 := by
        rw [List.length_take]; omega
      rw [hf _ ht, ih (xs.drop 16) (by rw [List.length_drop]; omega)
        (by rw [List.length_drop]; omega), List.length_drop]
      omega

theorem length_ecbGo (f : List Nat → List Nat)
    (hf : ∀ b, b.length = 16 → (f b).length = 16) (xs : List Nat)
    (hm : xs.length % 16 = 0) : (ecbGo f xs).length = xs.length :=
  length_ecbGoFuel f hf xs.length xs (le_refl _) hm

theorem ecbGoFuel_round (E D : List Nat → List Nat)
    (hE : ∀ b, b.length = 16 → (E b).length = 16)
    (hD : ∀ b, b.length = 16 → D (E b) = b) :
    ∀ n m xs, xs.length ≤ n → xs.length ≤ m → xs.length % 16 = 0 →
      ecbGoFuel m D (ecbGoFuel n E xs) = xs := by
  intro n
  induction n with
  | zero =>
    intro m xs h _ _
    have : xs = [] := List.eq_nil_of_length_eq_zero (by omega)
    subst this
    rw [ecbGoFuel_nil, ecbGoFuel_nil]
  | succ n ih =>
    intro m xs h hmfuel hm
    by_cases hx : xs = []
    · subst hx; rw [ecbGoFuel_nil, ecbGoFuel_nil]
    · have hpos : xs.length ≠ 0 := fun e => hx (List.eq_nil_of_length_eq_zero e)
      have h16 : 16 ≤ xs.length := by omega
      obtain ⟨m, rfl⟩ : ∃ k, m = k + 1 := ⟨m - 1, by omega⟩
      rw [ecbGoFuel_succ E n xs hx]
      have ht : (xs.take 16).length = 16 := by rw [List.length_take]; omega
      have hEt : (E (xs.take 16)).length = 16 := hE _ ht
      have hne2 : E (xs.take 16) ++ ecbGoFuel n E (xs.drop 16) ≠ [] := by
        intro e
        have := congrArg List.length e
        rw [List.length_append, hEt] at this
        simp at this
      rw [ecbGoFuel_succ D m _ hne2, List.take_left' hEt, List.drop_left' hEt,
        hD _ ht, ih m (xs.drop 16) (by rw [List.length_drop]; omega)
          (by rw [List.length_drop]; omega) (by rw [List.length_drop]; omega),
        List.take_append_drop]

theorem ecbGo_round (E D : List Nat → List Nat)
    (hE : ∀ b, b.length = 16 → (E b).length = 16)
    (hD : ∀ b, b.length = 16 → D (E b) = b) (xs : List Nat)
    (hm : xs.length % 16 = 0) : ecbGo D (ecbGo E xs) = xs := by
  unfold ecbGo
  rw [length_ecbGoFuel E hE xs.length xs (le_refl _) hm]
  exact ecbGoFuel_round E D hE hD xs.length xs.length xs (le_refl _) (le_refl _) hm

/-- Claim C4 (amended): for a 16-byte session key and an access code of at
most 16 bytes, the derived authentication token is the single-block AES-ECB
encryption under the shared secret of the XOR-aligned combination, and the
XOR result (hence the token) is exactly 16 bytes.  For longer access codes
the source does not truncate: the whole XOR result is passed to ECB
encryption (see the counterexample). -/
theorem claimC4_mac_key_single_block (E : List Nat → List Nat)
    (key code : List Nat) (hkey : key.length = 16) (hcode : code.length ≤ 16)
    (hE : ∀ b, b.length = 16 → (E b).length = 16) :
    encrypt_mac_key E key code = some (E (xor_bytes key code)) ∧
      (xor_bytes key code).length = 16 ∧ (E (xor_bytes key code)).length = 16 := by
  have hx : (xor_bytes key code).length = 16 := by
    rw [length_xor_bytes, hkey, max_eq_left hcode]
  refine ⟨?_, hx, hE _ hx⟩
  unfold encrypt_mac_key ecb
  rw [hx]
  rw [if_pos (by norm_num)]
  exact congrArg some (ecbGo_single E _ hx)

/-- Witness for claim C4: the amended statement at a concrete cipher (the
identity block function), key and access code. -/
theorem claimC4_witness :
    encrypt_mac_key (fun b => b) (List.replicate 16 0) [1, 2, 3, 4] =
        some ((fun (b : List Nat) => b) (xor_bytes (List.replicate 16 0) [1, 2, 3, 4])) ∧
      (xor_bytes (List.replicate 16 0) [1, 2, 3, 4]).length = 16 ∧
      ((fun (b : List Nat) => b) (xor_bytes (List.replicate 16 0) [1, 2, 3, 4])).length = 16 :=
  claimC4_mac_key_single_block (fun b => b) (List.replicate 16 0) [1, 2, 3, 4]
    (by decide) (by decide) (fun b hb => hb)

/-- Counterexample for claim C4 as stated: with a 32-byte access code the
XOR result is not truncated to 16 bytes before encryption; the token is two
cipher blocks (32 bytes), not exactly one 16-byte block.  The block
function is instantiated with the identity, which the length of the ECB
output does not depend on. -/
theorem claimC4_counterexample :
    (List.replicate 32 0).length = 32 ∧
      (encrypt_mac_key (fun b => b) (List.replicate 16 0)
          (List.replicate 32 0)).map List.length = some 32 ∧
      (32 : Nat) ≠ 16 := by decide

/-- Claim C1 (amended): the characteristic cipher round-trips exactly on
payloads whose length is congruent to 4 modulo 16 and at least 20 (after
XOR with the 16-byte key the buffer is the payload length, and the second
ECB pass covers bytes from offset 4, so PyCryptodome accepts the transform
only for such lengths; the 20-byte action packets satisfy this).  E and D
model the AES-128-ECB block encryption and decryption under the shared
secret. -/
theorem claimC1_encrypt_decrypt_roundtrip (E D : List Nat → List Nat)
    (data key : List Nat) (hkey : key.length = 16)
    (hE : ∀ b, b.length = 16 → (E b).length = 16)
    (hD : ∀ b, b.length = 16 → D (E b) = b)
    (hmod : data.length % 16 = 4) (hlen : 16 ≤ data.length) :
    ∃ c, encrypt_characteristic E data key = some c ∧
      decrypt_characteristic D c key = some data := by
  have hxlen : (xor_bytes data key).length = data.length := by
    rw [length_xor_bytes, hkey, max_eq_left hlen]
  set xored := xor_bytes data key with hxored
  have ht : (xored.take 16).length = 16 := by rw [List.length_take]; omega
  have hEt : (E (xored.take 16)).length = 16 := hE _ ht
  set A := E (xored.take 16) ++ xored.drop 16 with hA
  have hAlen : A.length = data.length := by
    rw [hA, List.length_append, hEt, List.length_drop]; omega
  have hA4 : (A.drop 4).length % 16 = 0 := by rw [List.length_drop]; omega
  have he1 : ecb E (xored.take 16) = some (E (xored.take 16)) := by
    unfold ecb
    rw [ht, if_pos (by norm_num)]
    exact congrArg some (ecbGo_single E _ ht)
  have he2 : ecb E (A.drop 4) = some (ecbGo E (A.drop 4)) := by
    unfold ecb
    rw [if_pos hA4]
  refine ⟨A.take 4 ++ ecbGo E (A.drop 4), ?_, ?_⟩
  · simp only [encrypt_characteristic, Option.pure_def, Option.bind_eq_bind]
    rw [← hxored, he1, Option.some_bind, ← hA, he2, Option.some_bind]
  · set c := A.take 4 ++ ecbGo E (A.drop 4) with hc
    have htake4 : (A.take 4).length = 4 := by rw [List.length_take]; omega
    have hcd : c.drop 4 = ecbGo E (A.drop 4) := by
      rw [hc, List.drop_left' htake4]
    have hct : c.take 4 = A.take 4 := by
      rw [hc, List.take_left' htake4]
    have hd1 : ecb D (c.drop 4) = some (A.drop 4) := by
      unfold ecb
      rw [hcd, length_ecbGo E hE _ hA4, if_pos hA4]
      exact congrArg some (ecbGo_round E D hE hD _ hA4)
    have harr : A.take 4 ++ A.drop 4 = A := List.take_append_drop 4 A
    have hA16 : A.take 16 = E (xored.take 16) := by
      rw [hA, List.take_left' hEt]
    have hd2 : ecb D (A.take 16) = some (xored.take 16) := by
      unfold ecb
      rw [hA16, hEt, if_pos (by norm_num), ecbGo_single D _ hEt, hD _ ht]
    have hAdrop : A.drop 16 = xored.drop 16 := by
      rw [hA, List.drop_left' hEt]
    simp only [decrypt_characteristic, Option.pure_def, Option.bind_eq_bind]
    rw [hd1, Option.some_bind, hct, harr, hd2, Option.some_bind, hAdrop,
      List.take_append_drop, hxored,
      xor_bytes_self_inverse_right data key (by omega)]

/-- Witness for claim C1: the amended round trip at the identity block
cipher pair, a 20-byte payload and a 16-byte key. -/
theorem claimC1_witness :
    ∃ c, encrypt_characteristic (fun b => b) (List.replicate 20 7)
        (List.replicate 16 3) = some c ∧
      decrypt_characteristic (fun b => b) c (List.replicate 16 3) =
        some (List.replicate 20 7) :=
  claimC1_encrypt_decrypt_roundtrip (fun b => b) (fun b => b)
    (List.replicate 20 7) (List.replicate 16 3) (by decide)
    (fun b hb => hb) (fun b _ => rfl) (by decide) (by decide)

/-- Counterexample for claim C1 as stated: a 16-byte payload (here 16 zero
bytes with a 16-byte zero key) cannot even be encrypted — after the first
ECB pass the second pass would cover 12 bytes, not a multiple of the block
size, so the library raises and no round trip yields the payload.  The
failure is in the length arithmetic, before any block encryption, so the
identity instantiation of the block function is representative. -/
theorem claimC1_counterexample :
    encrypt_characteristic (fun b => b) (List.replicate 16 0)
        (List.replicate 16 0) = none ∧
      (encrypt_characteristic (fun b => b) (List.replicate 16 0)
          (List.replicate 16 0)).bind
        (fun c => decrypt_characteristic (fun b => b) c (List.replicate 16 0)) ≠
        some (List.replicate 16 0) := by decide

theorem ok_bind {ε α β : Type} (a : α) (h : α → Except ε β) :
    (Except.ok a : Except ε α) >>= h = h a := rfl

theorem SpeedLevels.ofByte_le3 (v : Nat) (hv : v ≤ 3) :
    ∃ s, SpeedLevels.ofByte v = some s ∧ s ≠ SpeedLevels.NotSet := by
  interval_cases v
  · exact ⟨.Low, rfl, by decide⟩
  · exact ⟨.Medium, rfl, by decide⟩
  · exact ⟨.High, rfl, by decide⟩
  · exact ⟨.AI, rfl, by decide⟩

theorem SpeedLevels.ofByte_none (v : Nat) (h : 4 ≤ v) :
    SpeedLevels.ofByte v = none := by
  obtain ⟨n, rfl⟩ : ∃ n, v = n + 4 := ⟨v - 4, by omega⟩
  rfl

/-- The timer entry decoder always succeeds, and the fields of the produced
timer are fixed arithmetic in the four wire bytes; in particular the speed
level is never NotSet. -/
theorem decodeOneTimer_spec (b0 b1 b2 b3 : Nat) :
    ∃ t : PumpTimer, decodeOneTimer b0 b1 b2 b3 = .ok t ∧
      t.enabled = decide (b0 &&& 0x20 ≠ 0) ∧
      t.start_time = (b0 &&& 0x1F) * 60 + b1 ∧
      t.stop_time = b2 * 60 + b3 ∧
      t.speed_level ≠ SpeedLevels.NotSet := by
  have hv : (b0 &&& 0xC0) >>> 6 ≤ 3 := by
    have h1 : b0 &&& 0xC0 ≤ 0xC0 := Nat.and_le_right
    have h2 : (b0 &&& 0xC0) >>> 6 = (b0 &&& 0xC0) / 64 := by
      rw [Nat.shiftRight_eq_div_pow]
    omega
  obtain ⟨s, hs, hsne⟩ := SpeedLevels.ofByte_le3 _ hv
  refine ⟨⟨decide (b0 &&& 0x20 ≠ 0), (b0 &&& 0x1F) * 60 + b1, b2 * 60 + b3, s⟩,
    ?_, rfl, rfl, rfl, hsne⟩
  unfold decodeOneTimer
  rw [hs]

/-- Claim C2 (amended): a pump timer whose encoded start hour (the low five
bits of its first wire byte) is at least 24 is classified invalid by
is_invalid exactly when its enabled flag is set; with the flag cleared,
is_invalid short-circuits to False for every timer. -/
theorem claimC2_start_hour_24_invalid (b0 b1 b2 b3 : Nat)
    (h24 : 24 ≤ b0 &&& 0x1F) (t : PumpTimer)
    (hdec : decodeOneTimer b0 b1 b2 b3 = .ok t) :
    (t.enabled = true → t.is_invalid = true) ∧
      (t.enabled = false → t.is_invalid = false) := by
  obtain ⟨t', hdec', hen, hstart, hstop, hspeed⟩ := decodeOneTimer_spec b0 b1 b2 b3
  rw [hdec] at hdec'
  injection hdec' with heq
  subst heq
  constructor
  · intro hTrue
    have hst : 1440 ≤ t.start_time := by rw [hstart]; omega
    unfold PumpTimer.is_invalid
    rw [hTrue]
    rcases Nat.lt_or_ge 1440 t.start_time with hgt | hle
    · simp [dayMinutes, hgt]
    · have heq : t.start_time = 1440 := by omega
      rcases Nat.lt_or_ge 1440 t.stop_time with hgt2 | hle2
      · simp [dayMinutes, hgt2]
      · have hge : t.stop_time ≤ t.start_time := by omega
        simp [dayMinutes, hge]
  · intro hFalse
    unfold PumpTimer.is_invalid
    rw [hFalse]
    simp

/-- Witness for claim C2: byte 0x38 encodes start hour 24 with the enabled
bit set; the decoded timer is reported invalid. -/
theorem claimC2_witness :
    (24 ≤ 0x38 &&& 0x1F) ∧
      PumpTimer.is_invalid ⟨true, 1440, 0, SpeedLevels.Low⟩ = true :=
  ⟨by decide,
    (claimC2_start_hour_24_invalid 0x38 0 0 0 (by decide)
      ⟨true, 1440, 0, SpeedLevels.Low⟩ (by decide)).1 rfl⟩

/-- Counterexample for claim C2 as stated: byte 25 encodes start hour 25
(at least 24) with the enabled bit cleared, and the decoded timer is
classified valid (is_invalid = false), so the classification is not
independent of the enabled flag. -/
theorem claimC2_counterexample :
    (24 ≤ 25 &&& 0x1F) ∧ (25 &&& 0x20 = 0) ∧
      decodeOneTimer 25 0 0 0 =
        .ok ⟨false, 1500, 0, SpeedLevels.Low⟩ ∧
      PumpTimer.is_invalid ⟨false, 1500, 0, SpeedLevels.Low⟩ = false := by decide

/-- Claim C10: a timers buffer of at least 16 bytes decodes to exactly four
timers at a 4-byte stride; each timer's start hour is the low five bits of
its first byte (at most 31), its enabled flag is bit 0x20 of that byte, and
its speed level is never NotSet (the two-bit code is always in the enum
domain, so the conversion never raises). -/
theorem claimC10_timers_decode (bs : List Nat) (h : 16 ≤ bs.length) :
    ∃ T : ChlorinatorTimers, decodeChlorinatorTimers bs = .ok T ∧
      T.pump_timers.length = 4 ∧
      ∀ i, i < 4 →
        ∃ t, T.pump_timers[i]? = some t ∧
          decodeOneTimer (byteAt bs (4 * i)) (byteAt bs (4 * i + 1))
            (byteAt bs (4 * i + 2)) (byteAt bs (4 * i + 3)) = .ok t ∧
          t.start_time = (byteAt bs (4 * i) &&& 0x1F) * 60 + byteAt bs (4 * i + 1) ∧
          byteAt bs (4 * i) &&& 0x1F ≤ 31 ∧
          t.enabled = decide (byteAt bs (4 * i) &&& 0x20 ≠ 0) ∧
          t.speed_level ≠ SpeedLevels.NotSet := by
  obtain ⟨t0, h0, he0, hs0, hp0, hn0⟩ :=
    decodeOneTimer_spec (byteAt bs 0) (byteAt bs 1) (byteAt bs 2) (byteAt bs 3)
  obtain ⟨t1, h1, he1, hs1, hp1, hn1⟩ :=
    decodeOneTimer_spec (byteAt bs 4) (byteAt bs 5) (byteAt bs 6) (byteAt bs 7)
  obtain ⟨t2, h2, he2, hs2, hp2, hn2⟩ :=
    decodeOneTimer_spec (byteAt bs 8) (byteAt bs 9) (byteAt bs 10) (byteAt bs 11)
  obtain ⟨t3, h3, he3, hs3, hp3, hn3⟩ :=
    decodeOneTimer_spec (byteAt bs 12) (byteAt bs 13) (byteAt bs 14) (byteAt bs 15)
  refine ⟨⟨[t0, t1, t2, t3]⟩, ?_, rfl, ?_⟩
  · unfold decodeChlorinatorTimers
    rw [if_neg (by omega), h0, ok_bind, h1, ok_bind, h2, ok_bind, h3, ok_bind]
    rfl
  · intro i hi
    interval_cases i
    · exact ⟨t0, rfl, by norm_num [h0, hs0, he0, hn0, Nat.and_le_right]⟩
    · exact ⟨t1, rfl, by norm_num [h1, hs1, he1, hn1, Nat.and_le_right]⟩
    · exact ⟨t2, rfl, by norm_num [h2, hs2, he2, hn2, Nat.and_le_right]⟩
    · exact ⟨t3, rfl, by norm_num [h3, hs3, he3, hn3, Nat.and_le_right]⟩

/-- Witness for claim C10: the decode of a concrete 16-byte buffer. -/
theorem claimC10_witness :
    ∃ T : ChlorinatorTimers,
      decodeChlorinatorTimers (List.replicate 16 0) = .ok T ∧
      T.pump_timers.length = 4 ∧
      ∀ i, i < 4 →
        ∃ t, T.pump_timers[i]? = some t ∧
          decodeOneTimer (byteAt (List.replicate 16 0) (4 * i))
            (byteAt (List.replicate 16 0) (4 * i + 1))
            (byteAt (List.replicate 16 0) (4 * i + 2))
            (byteAt (List.replicate 16 0) (4 * i + 3)) = .ok t ∧
          t.start_time =
            (byteAt (List.replicate 16 0) (4 * i) &&& 0x1F) * 60 +
              byteAt (List.replicate 16 0) (4 * i + 1) ∧
          byteAt (List.replicate 16 0) (4 * i) &&& 0x1F ≤ 31 ∧
          t.enabled =
            decide (byteAt (List.replicate 16 0) (4 * i) &&& 0x20 ≠ 0) ∧
          t.speed_level ≠ SpeedLevels.NotSet :=
  claimC10_timers_decode (List.replicate 16 0) (by decide)

/-- Claim C3 (amended): in the StateFlags bit masks, 0x21 is
ChemistryValuesCurrent (0x01) together with CellIsOperating (0x20), so a
state record whose flags byte is 0x21 has exactly chemistry_values_current
and cell_is_operating set and every other flag-derived boolean clear;
PumpIsPriming is bit 0x08 and is not set by 0x21. -/
theorem claimC3_state_flags_0x21 (bs : List Nat) (st : ChlorinatorState)
    (hdec : decodeChlorinatorState bs = .ok st) (hflags : st.flags = 0x21) :
    st.chemistry_values_current = true ∧ st.cell_is_operating = true ∧
      st.pump_is_priming = false ∧ st.chemistry_values_valid = false ∧
      st.spa_selection = false ∧ st.pump_is_operating = false ∧
      st.user_settings_has_changed = false ∧
      st.sanitising_until_next_timer_tomorrow = false := by
  unfold decodeChlorinatorState at hdec
  split at hdec
  · exact absurd hdec (by simp)
  split at hdec
  · exact absurd hdec (by simp)
  split at hdec
  · exact absurd hdec (by simp)
  split at hdec
  · exact absurd hdec (by simp)
  split at hdec
  · exact absurd hdec (by simp)
  injection hdec with heq
  subst heq
  simp only at hflags ⊢
  rw [hflags]
  refine ⟨by decide, by decide, by decide, by decide, by decide, by decide,
    by decide, by decide⟩

/-- Witness for claim C3: a concrete 11-byte state buffer with flags byte
0x21 decodes with exactly the two flag booleans set. -/
theorem claimC3_witness :
    decodeChlorinatorState stateBuf0x21 = .ok stateRecord0x21 ∧
      stateRecord0x21.chemistry_values_current = true ∧
      stateRecord0x21.cell_is_operating = true ∧
      stateRecord0x21.pump_is_priming = false ∧
      stateRecord0x21.chemistry_values_valid = false ∧
      stateRecord0x21.spa_selection = false ∧
      stateRecord0x21.pump_is_operating = false ∧
      stateRecord0x21.user_settings_has_changed = false ∧
      stateRecord0x21.sanitising_until_next_timer_tomorrow = false :=
  ⟨rfl,
    claimC3_state_flags_0x21 stateBuf0x21 stateRecord0x21 rfl rfl⟩

/-- Counterexample for claim C3 as stated: for the same buffer, the claim
demands pump_is_priming = true and cell_is_operating = false, but the code
decodes flags 0x21 with pump_is_priming = false and cell_is_operating =
true (0x21 has bit 0x20 = CellIsOperating set, not bit 0x08 =
PumpIsPriming). -/
theorem claimC3_counterexample :
    (decodeChlorinatorState [0, 0, 0, 0, 0, 0x21, 70, 4, 0, 0, 0]).map
        ChlorinatorState.pump_is_priming = .ok false ∧
      (decodeChlorinatorState [0, 0, 0, 0, 0, 0x21, 70, 4, 0, 0, 0]).map
        ChlorinatorState.cell_is_operating = .ok true := ⟨rfl, rfl⟩

/-- The volume-units assignment as a function of the flags byte: the
masked-bits value 0x08 assigns nothing, ImperialGallons is unreachable,
and only 0x00 (Litres) or a set 0x04 bit (UsGallons) produce a value. -/
theorem capabilitiesVolumeUnits_spec (f : Nat) :
    (f &&& 0xC = 8 → capabilitiesVolumeUnits f = none) ∧
      capabilitiesVolumeUnits f ≠ some VolumeUnitsTypes.ImperialGallons ∧
      (f &&& 0xC = 0 → capabilitiesVolumeUnits f = some VolumeUnitsTypes.Litres) ∧
      (f &&& 4 ≠ 0 → capabilitiesVolumeUnits f = some VolumeUnitsTypes.UsGallons) := by
  have h4 : f &&& 4 = (f &&& 0xC) &&& 4 := by
    rw [Nat.and_assoc, show (12 : Nat) &&& 4 = 4 from rfl]
  unfold capabilitiesVolumeUnits
  split_ifs with h1 h2
  · refine ⟨fun h8 => ?_, by simp, fun h0 => absurd h0 h1, fun _ => rfl⟩
    rw [h8, show (8 : Nat) &&& 4 = 0 from rfl] at h4
    exact absurd h4 h2
  · refine ⟨fun _ => rfl, by simp, fun h0 => absurd h0 h1, fun hne => absurd hne h2⟩
  · push_neg at h1
    refine ⟨fun h8 => ?_, by simp, fun _ => rfl, fun hne => ?_⟩
    · omega
    · rw [h1, show (0 : Nat) &&& 4 = 0 from rfl] at h4
      exact absurd h4 hne

/-- Claim C9: decoding a capabilities buffer never assigns ImperialGallons:
with the volume-unit bits (mask 0x0C) equal to 0x08 the attribute stays
unassigned (none), since both conditional branches test the US-gallons bit
0x04; it is assigned only for masked bits 0x00 (Litres) or a set 0x04 bit
(UsGallons). -/
theorem claimC9_capabilities_volume_units (bs : List Nat)
    (st : ChlorinatorCapabilities)
    (hdec : decodeChlorinatorCapabilities bs = .ok st) :
    (st.flags &&& 0xC = 8 → st.volume_units = none) ∧
      st.volume_units ≠ some VolumeUnitsTypes.ImperialGallons ∧
      (st.flags &&& 0xC = 0 → st.volume_units = some VolumeUnitsTypes.Litres) ∧
      (st.flags &&& 4 ≠ 0 → st.volume_units = some VolumeUnitsTypes.UsGallons) := by
  unfold decodeChlorinatorCapabilities at hdec
  split at hdec
  · exact absurd hdec (by simp)
  split at hdec
  · exact absurd hdec (by simp)
  split at hdec
  · exact absurd hdec (by simp)
  injection hdec with heq
  subst heq
  exact capabilitiesVolumeUnits_spec (byteAt bs 10)

/-- Witness for claim C9: the concrete buffer with volume-unit bits 0x08
decodes with no volume_units value assigned. -/
theorem claimC9_witness :
    decodeChlorinatorCapabilities capsBuf8 = .ok capsRecord8 ∧
      capsRecord8.flags &&& 0xC = 8 ∧
      capsRecord8.volume_units = none ∧
      capsRecord8.volume_units ≠ some VolumeUnitsTypes.ImperialGallons :=
  ⟨rfl, rfl,
    (claimC9_capabilities_volume_units capsBuf8 capsRecord8 rfl).1 rfl,
    (claimC9_capabilities_volume_units capsBuf8 capsRecord8 rfl).2.1⟩

/-- Claim C7: decoding a 3-byte truncated buffer with any of the registry
decoders that expect at least 4 bytes (setup expects 5, state 11,
capabilities 20, statistics 17, timers 16) fails with the shortBuffer
error; the decoders are total Lean functions, so no out-of-bounds read or
panic is possible; and a value outside an enumerated domain (here a
default_manual_on_speed byte of 4 or more in a well-sized setup buffer)
fails with the distinct unknownEnumValue error instead of silently
defaulting. -/
theorem claimC7_short_buffer_distinct_errors :
    (∀ bs : List Nat, bs.length = 3 →
        decodeChlorinatorSetup bs = .error .shortBuffer ∧
        decodeChlorinatorState bs = .error .shortBuffer ∧
        decodeChlorinatorCapabilities bs = .error .shortBuffer ∧
        decodeChlorinatorStatistics bs = .error .shortBuffer ∧
        decodeChlorinatorTimers bs = .error .shortBuffer) ∧
      (∀ bs : List Nat, 5 ≤ bs.length → 4 ≤ byteAt bs 0 →
        decodeChlorinatorSetup bs = .error (.unknownEnumValue "SpeedLevels")) ∧
      (∀ s, DecodeError.shortBuffer ≠ DecodeError.unknownEnumValue s) := by
  refine ⟨fun bs h => ?_, fun bs h5 h4 => ?_, fun s => by simp⟩
  · refine ⟨?_, ?_, ?_, ?_, ?_⟩
    · unfold decodeChlorinatorSetup; rw [if_pos (by omega)]
    · unfold decodeChlorinatorState; rw [if_pos (by omega)]
    · unfold decodeChlorinatorCapabilities; rw [if_pos (by omega)]
    · unfold decodeChlorinatorStatistics; rw [if_pos (by omega)]
    · unfold decodeChlorinatorTimers; rw [if_pos (by omega)]
  · unfold decodeChlorinatorSetup
    rw [if_neg (by omega), SpeedLevels.ofByte_none _ h4]

/-- Witness for claim C7: a concrete 3-byte buffer fails every decoder with
shortBuffer, and a 5-byte buffer with speed byte 4 fails with
unknownEnumValue. -/
theorem claimC7_witness :
    (decodeChlorinatorSetup [0, 0, 0] = .error .shortBuffer ∧
        decodeChlorinatorState [0, 0, 0] = .error .shortBuffer ∧
        decodeChlorinatorCapabilities [0, 0, 0] = .error .shortBuffer ∧
        decodeChlorinatorStatistics [0, 0, 0] = .error .shortBuffer ∧
        decodeChlorinatorTimers [0, 0, 0] = .error .shortBuffer) ∧
      decodeChlorinatorSetup [4, 0, 0, 0, 0] =
        .error (.unknownEnumValue "SpeedLevels") ∧
      DecodeError.shortBuffer ≠ DecodeError.unknownEnumValue "SpeedLevels" :=
  ⟨claimC7_short_buffer_distinct_errors.1 [0, 0, 0] rfl,
    claimC7_short_buffer_distinct_errors.2.1 [4, 0, 0, 0, 0] (by decide) (by decide),
    claimC7_short_buffer_distinct_errors.2.2 "SpeedLevels"⟩

/-- Claim C5 (amended): the poll-variant action encoder packs a 1-byte tag,
a 4-byte little-endian signed parameter and zero padding to 20 bytes; the
halo-variant encoder packs its 3-byte header, the tag, the 4-byte
little-endian signed parameter and zero padding, also to 20 bytes total
(format =3s B i 12x), not 16. -/
theorem claimC5_action_encoding (a : Nat) (p : Int) (ha : a < 256)
    (hp1 : -2147483648 ≤ p) (hp2 : p < 2147483648) :
    chlorinatorActionBytes a p =
        some ([a] ++ i32le p ++ List.replicate 15 0) ∧
      (∀ out, chlorinatorActionBytes a p = some out → out.length = 20) ∧
      haloChlorinatorActionBytes haloActionDefaultHeader a p =
        some (haloActionDefaultHeader ++ [a] ++ i32le p ++ List.replicate 12 0) ∧
      (∀ out, haloChlorinatorActionBytes haloActionDefaultHeader a p = some out →
        out.length = 20) := by
  have hcond : a < 256 ∧ -2147483648 ≤ p ∧ p < 2147483648 := ⟨ha, hp1, hp2⟩
  have hlen4 : (i32le p).length = 4 := rfl
  refine ⟨?_, fun out hout => ?_, ?_, fun out hout => ?_⟩
  · unfold chlorinatorActionBytes
    rw [if_pos hcond]
  · unfold chlorinatorActionBytes at hout
    rw [if_pos hcond] at hout
    injection hout with he
    rw [← he]
    simp [hlen4]
  · unfold haloChlorinatorActionBytes
    rw [if_pos hcond]
    rfl
  · unfold haloChlorinatorActionBytes at hout
    rw [if_pos hcond] at hout
    injection hout with he
    rw [← he]
    simp [hlen4, pack3s, haloActionDefaultHeader]

/-- Witness for claim C5: the encoders at tag 1 (Off) and parameter 0. -/
theorem claimC5_witness :
    chlorinatorActionBytes 1 0 =
        some ([1] ++ i32le 0 ++ List.replicate 15 0) ∧
      (∀ out, chlorinatorActionBytes 1 0 = some out → out.length = 20) ∧
      haloChlorinatorActionBytes haloActionDefaultHeader 1 0 =
        some (haloActionDefaultHeader ++ [1] ++ i32le 0 ++ List.replicate 12 0) ∧
      (∀ out, haloChlorinatorActionBytes haloActionDefaultHeader 1 0 = some out →
        out.length = 20) :=
  claimC5_action_encoding 1 0 (by decide) (by decide) (by decide)

/-- Counterexample for claim C5 as stated: the halo action encoder emits a
20-byte buffer (3-byte header, tag, 4-byte parameter and 12 pad bytes),
not the claimed 16 bytes. -/
theorem claimC5_counterexample :
    (haloChlorinatorActionBytes haloActionDefaultHeader 1 0).map List.length =
        some 20 ∧ (20 : Nat) ≠ 16 := by decide

theorem handlePacket_none (r : Nat → Option HaloDecoder) (snap : Snapshot)
    (p : List Nat) (h : packetFields r p = none) :
    handlePacket r snap p = snap := by
  unfold handlePacket
  unfold packetFields at h
  cases hr : r (cmdTypeOf p) with
  | none => simp [hr]
  | some dec =>
    rw [hr] at h
    simp only at h
    simp [hr, h]

theorem handlePacket_some (r : Nat → Option HaloDecoder) (snap : Snapshot)
    (p : List Nat) (fields : List (String × Rat))
    (h : packetFields r p = some fields) :
    handlePacket r snap p = updateSnapshot snap fields := by
  unfold handlePacket
  unfold packetFields at h
  cases hr : r (cmdTypeOf p) with
  | none => rw [hr] at h; simp at h
  | some dec =>
    rw [hr] at h
    simp only at h
    simp [hr, h]

theorem updateSnapshot_some (snap : Snapshot) (fields : List (String × Rat))
    (k : String) (v : Rat) (h : lookupLast fields k = some v) :
    updateSnapshot snap fields k = some v := by
  simp [updateSnapshot, h]

theorem updateSnapshot_none (snap : Snapshot) (fields : List (String × Rat))
    (k : String) (h : lookupLast fields k = none) :
    updateSnapshot snap fields k = snap k := by
  simp [updateSnapshot, h]

theorem updateSnapshot_isSome (snap : Snapshot) (fields : List (String × Rat))
    (k : String) (h : (lookupLast fields k).isSome) :
    ((updateSnapshot snap fields) k).isSome := by
  cases hl : lookupLast fields k with
  | none => rw [hl] at h; simp at h
  | some v => rw [updateSnapshot_some snap fields k v hl]; rfl

theorem handlePacket_isSome (r : Nat → Option HaloDecoder) (snap : Snapshot)
    (p : List Nat) (k : String) (h : (snap k).isSome) :
    ((handlePacket r snap p) k).isSome := by
  cases hf : packetFields r p with
  | none => rw [handlePacket_none r snap p hf]; exact h
  | some fields =>
    rw [handlePacket_some r snap p fields hf]
    cases hl : lookupLast fields k with
    | none => rw [updateSnapshot_none snap fields k hl]; exact h
    | some v => rw [updateSnapshot_some snap fields k v hl]; rfl

theorem foldl_handle_isSome (r : Nat → Option HaloDecoder)
    (ps : List (List Nat)) :
    ∀ (snap : Snapshot) (k : String), (snap k).isSome →
      ((ps.foldl (handlePacket r) snap) k).isSome := by
  induction ps with
  | nil => exact fun _ _ h => h
  | cons p t ih =>
    intro snap k h
    exact ih (handlePacket r snap p) k (handlePacket_isSome r snap p k h)

theorem lookup_isSome_of_mem {β : Type} (k : String) :
    ∀ l : List (String × β), k ∈ l.map Prod.fst → (l.lookup k).isSome := by
  intro l
  induction l with
  | nil => intro h; simp at h
  | cons ab t ih =>
    obtain ⟨a, b⟩ := ab
    intro h
    by_cases hk : k = a
    · subst hk; simp [List.lookup]
    · have hmem : k ∈ t.map Prod.fst := by
        simpa [hk] using h
      simpa [List.lookup, beq_eq_false_iff_ne.mpr hk] using ih hmem

theorem lookupLast_isSome (fields : List (String × Rat)) (k : String)
    (h : k ∈ fields.map Prod.fst) : (lookupLast fields k).isSome := by
  unfold lookupLast
  exact lookup_isSome_of_mem k fields.reverse
    (by rw [List.map_reverse, List.mem_reverse]; exact h)

theorem foldl_handle_untouched (r : Nat → Option HaloDecoder) (k : String) :
    ∀ (ps : List (List Nat)) (snap : Snapshot),
      (∀ q ∈ ps, ∀ gs, packetFields r q = some gs → lookupLast gs k = none) →
      (ps.foldl (handlePacket r) snap) k = snap k := by
  intro ps
  induction ps with
  | nil => exact fun _ _ => rfl
  | cons q t ih =>
    intro snap hq
    have hstep : (handlePacket r snap q) k = snap k := by
      cases hf : packetFields r q with
      | none => rw [handlePacket_none r snap q hf]
      | some gs =>
        rw [handlePacket_some r snap q gs hf,
          updateSnapshot_none snap gs k (hq q (List.mem_cons_self q t) gs hf)]
    rw [List.foldl_cons, ih (handlePacket r snap q)
      (fun q2 hmem gs hgs => hq q2 (List.mem_cons_of_mem q hmem) gs hgs), hstep]

/-- Claim C8 (amended): over an ordered sequence of decrypted notification
packets, the demultiplexer merges into the snapshot the fields of every
packet whose command tag is in the registry and whose data slice decodes
successfully; on a field-name collision the later packet wins; and feeding
well-formed packets tagged 9 (temperature) then 600 (probe statistics)
yields a snapshot populated with every field of both records.  (A packet
whose decoder raises — short data slice or out-of-domain enum byte —
contributes nothing; see the counterexample.) -/
theorem claimC8_demux_merge :
    (∀ (r : Nat → Option HaloDecoder) (ps : List (List Nat)) (p : List Nat)
        (fields : List (String × Rat)) (k : String),
      p ∈ ps → packetFields r p = some fields → k ∈ fields.map Prod.fst →
        (processPackets r ps k).isSome) ∧
      (∀ (r : Nat → Option HaloDecoder) (l₁ l₂ : List (List Nat))
          (p : List Nat) (fields : List (String × Rat)) (k : String) (v : Rat),
        packetFields r p = some fields → lookupLast fields k = some v →
        (∀ q ∈ l₂, ∀ gs, packetFields r q = some gs → lookupLast gs k = none) →
        processPackets r (l₁ ++ p :: l₂) k = some v) ∧
      ((tempFieldNames ++ probeFieldNames).all
        (fun n =>
          (processPackets characteristics9600 [packet9, packet600] n).isSome) =
        true) := by
  refine ⟨?_, ?_, by decide⟩
  · intro r ps p fields k hmem hpf hk
    obtain ⟨l₁, l₂, rfl⟩ := List.append_of_mem hmem
    unfold processPackets
    rw [List.foldl_append]
    simp only [List.foldl_cons]
    apply foldl_handle_isSome
    rw [handlePacket_some r _ p fields hpf]
    exact updateSnapshot_isSome _ fields k (lookupLast_isSome fields k hk)
  · intro r l₁ l₂ p fields k v hpf hk hafter
    unfold processPackets
    rw [List.foldl_append]
    simp only [List.foldl_cons]
    rw [foldl_handle_untouched r k l₂ _ hafter,
      handlePacket_some r _ p fields hpf, updateSnapshot_some _ fields k v hk]

/-- Witness for claim C8: the union part applied to the concrete packet
tagged 9 — its WaterTemp field is present in the resulting snapshot. -/
theorem claimC8_witness :
    (processPackets characteristics9600 [packet9, packet600] "WaterTemp").isSome =
      true :=
  claimC8_demux_merge.1 characteristics9600 [packet9, packet600] packet9
    tempFields9 "WaterTemp" (List.mem_cons_self packet9 [packet600]) rfl
    (by decide)

/-- Counterexample for claim C8 as stated: a packet whose command tag 9 is
in the registry but whose data slice fails to decode (WaterTempValid byte 5
is outside the enum domain) contributes no fields, so the snapshot does not
contain the union of the fields of every packet whose tag is in the
registry. -/
theorem claimC8_counterexample :
    cmdTypeOf packetBad9 = 9 ∧
      (characteristics9600 9).isSome = true ∧
      "WaterTemp" ∈ tempFieldNames ∧
      processPackets characteristics9600 [packetBad9] "WaterTemp" = none := by
  refine ⟨rfl, rfl, by decide, rfl⟩

end PyChlorinator
